import Mathlib

/-!
# Thermal manager (`src/services/thermal_mgr/thermal_mgr.c`)

A shallow embedding of the thermal manager service: the event queue handle, the posting entry
points `thermalMgrSendEvent` and `osHandlerLM75BD`, and the body of the `thermalMgr` task loop.

* C pointers that may be `NULL` are `Option`s (`none` is `NULL`).
* The file-scope handles are the fields of `State`; every function passes the state explicitly.
* Calls to the collaborators (sensor driver, console, logger) are recorded, in program order, in
  the `trace` field of the state.
* The FreeRTOS queue is a list of items (oldest first) together with its fixed length.
-/

namespace ThermalMgr

/-! ## Types declared in headers that the source includes -/

/-- Modelled from the spec: `errors.h` is not part of the sources. The error codes are the ones
`thermal_mgr.c` names (in code or in its comments); `ERR_CODE_OTHER` stands for every remaining
value of the C enumeration, such as the fault codes of the sensor driver. -/
inductive error_code_t where
  | ERR_CODE_SUCCESS
  | ERR_CODE_UNKNOWN
  | ERR_CODE_INVALID_ARG
  | ERR_CODE_INVALID_STATE
  | ERR_CODE_QUEUE_FULL
  | ERR_CODE_INVALID_QUEUE_MSG
  | ERR_CODE_INVALID_EVENT_RECEIVED
  | ERR_CODE_OTHER (code : Nat)
deriving DecidableEq

/-- Modelled from the spec: `thermal_mgr.h` is not part of the sources. The two event kinds are
the ones the task dispatches on; `THERMAL_MGR_EVENT_OTHER` stands for every other value the
`type` field of a received record can hold. -/
inductive thermal_mgr_event_type_t where
  | THERMAL_MGR_EVENT_MEASURE_TEMP_CMD
  | THERMAL_MGR_EVENT_OS_INTERRUPT
  | THERMAL_MGR_EVENT_OTHER (raw : Nat)
deriving DecidableEq

/-- Modelled from the spec: the event record of `thermal_mgr.h`; as the source notes at
`osHandlerLM75BD`, the struct has a single member. -/
structure thermal_mgr_event_t where
  type : thermal_mgr_event_type_t
deriving DecidableEq

/-- Values of the C type `float`: the finite values are rationals (every finite float is one),
next to the two infinities and not-a-number. -/
inductive float where
  | finite (q : ℚ)
  | posInf
  | negInf
  | nan
deriving DecidableEq

/-- The C comparison `a < b` on floats: false as soon as an operand is not-a-number. -/
def float.lt : float → float → Bool
  | .nan, _ => false
  | _, .nan => false
  | .finite a, .finite b => decide (a < b)
  | .finite _, .posInf => true
  | .finite _, .negInf => false
  | .negInf, .negInf => false
  | .negInf, _ => true
  | .posInf, _ => false

/-- The C comparison `a >= b` on floats: false as soon as an operand is not-a-number. -/
def float.ge : float → float → Bool
  | .nan, _ => false
  | _, .nan => false
  | .finite a, .finite b => decide (b ≤ a)
  | .finite _, .posInf => false
  | .finite _, .negInf => true
  | .negInf, .negInf => true
  | .negInf, _ => false
  | .posInf, _ => true

/-- Modelled from the spec: the configuration record of `lm75bd.h`, with the two fields the task
reads (`config.devAddr`, `config.hysteresisThresholdCelsius`). -/
structure lm75bd_config_t where
  devAddr : Nat
  hysteresisThresholdCelsius : float

/-! ## The queue primitives -/

/-- The constant `THERMAL_MGR_QUEUE_LENGTH`, defined as `10U`. -/
def THERMAL_MGR_QUEUE_LENGTH : Nat := 10

/-- Modelled from the spec: the FreeRTOS queue object behind a `QueueHandle_t`, a buffer of fixed
capacity `uxLength` holding events by value, oldest first. -/
structure Queue where
  uxLength : Nat
  items : List thermal_mgr_event_t
deriving DecidableEq

/-- Modelled from the spec: `xQueueCreateStatic` on valid static storage gives an empty queue of
the requested length. -/
def xQueueCreateStatic (uxQueueLength : Nat) : Option Queue :=
  some { uxLength := uxQueueLength, items := [] }

/-- Modelled from the spec: `xQueueSend` with a zero block time. With room left the item is copied
to the back of the queue and the call passes (`true` is `pdPASS`); on a full queue the call fails
at once and the queue is left as it was. -/
def xQueueSend (q : Queue) (item : thermal_mgr_event_t) : Bool × Queue :=
  if q.items.length < q.uxLength then
    (true, { q with items := q.items ++ [item] })
  else
    (false, q)

/-- Modelled from the spec: `xQueueReceive`. With an item available the oldest one is removed and
returned; on an empty queue the caller stays suspended, which is `none`. -/
def xQueueReceive (q : Queue) : Option (thermal_mgr_event_t × Queue) :=
  match q.items with
  | [] => none
  | item :: rest => some (item, { q with items := rest })

/-! ## Collaborator calls and the program state -/

/-- The calls the service makes to its collaborators. -/
inductive Effect where
  | readTempLM75BD (devAddr : Nat)
  | logErrorCode (errCode : error_code_t)
  | addTemperatureTelemetry (tempC : float)
  | overTemperatureDetected
  | safeOperatingConditions
deriving DecidableEq

/-- The file-scope variables of `thermal_mgr.c` (`thermalMgrTaskHandle` keeps the `pvParameters`
the task was created with) and the record of collaborator calls made so far. -/
structure State where
  thermalMgrTaskHandle : Option lm75bd_config_t
  thermalMgrQueueHandle : Option Queue
  trace : List Effect

/-- The state before `initThermalSystemManager`: zero-initialised statics, nothing called yet. -/
def State.boot : State :=
  { thermalMgrTaskHandle := none, thermalMgrQueueHandle := none, trace := [] }

/-- The events held by the channel, oldest first (none before the queue exists). -/
def State.queued (st : State) : List thermal_mgr_event_t :=
  match st.thermalMgrQueueHandle with
  | none => []
  | some q => q.items

/-- The notifications among the collaborator calls: telemetry, safe, over-temperature. -/
def Effect.isNotification : Effect → Bool
  | .addTemperatureTelemetry _ => true
  | .overTemperatureDetected => true
  | .safeOperatingConditions => true
  | _ => false

/-- The notifications of a trace, in order. -/
def notifications (tr : List Effect) : List Effect :=
  tr.filter Effect.isNotification

/-! ## `thermal_mgr.c` -/

/-- The function `void initThermalSystemManager(lm75bd_config_t *config)`: creates the task with
`config` as its parameter, then the queue of `THERMAL_MGR_QUEUE_LENGTH` items. -/
def initThermalSystemManager (config : lm75bd_config_t) (st : State) : State :=
  { st with
    thermalMgrTaskHandle := some config
    thermalMgrQueueHandle := xQueueCreateStatic THERMAL_MGR_QUEUE_LENGTH }

/-- The function `error_code_t thermalMgrSendEvent(thermal_mgr_event_t *event)`. -/
def thermalMgrSendEvent (event : Option thermal_mgr_event_t) (st : State) :
    error_code_t × State :=
  match event with
  | none => (.ERR_CODE_INVALID_ARG, st)
  | some ev =>
    match st.thermalMgrQueueHandle with
    | none => (.ERR_CODE_INVALID_STATE, st)
    | some q =>
      let r := xQueueSend q ev
      if r.1 != true then
        (.ERR_CODE_UNKNOWN, { st with thermalMgrQueueHandle := some r.2 })
      else
        (.ERR_CODE_SUCCESS, { st with thermalMgrQueueHandle := some r.2 })

/-- The function `void osHandlerLM75BD(void)`: the return value of the post is dropped. -/
def osHandlerLM75BD (st : State) : State :=
  let event : thermal_mgr_event_t := { type := .THERMAL_MGR_EVENT_OS_INTERRUPT }
  (thermalMgrSendEvent (some event) st).2

/-- Modelled from the spec: `LOG_ERROR_CODE` of `logging.h` hands the code to the logger. -/
def LOG_ERROR_CODE (errCode : error_code_t) : List Effect :=
  [.logErrorCode errCode]

/-- Modelled from the spec: `LOG_IF_ERROR_CODE` of `logging.h` stores the result of the call in
the local `errCode` and logs it when it is not `ERR_CODE_SUCCESS`. The value is the new `errCode`
with the logger calls made. -/
def LOG_IF_ERROR_CODE (ret : error_code_t) : error_code_t × List Effect :=
  if ret != .ERR_CODE_SUCCESS then (ret, LOG_ERROR_CODE ret) else (ret, [])

/-- The block of `thermalMgr` guarded by `xQueueReceive(...) == pdPASS`, for the received
`event`. `sensor` is what `readTempLM75BD` answers if it is called now: its return code and the
value it stores through the `temp` pointer. The value is the list of collaborator calls made. -/
def thermalMgrHandle (config : lm75bd_config_t) (sensor : error_code_t × float)
    (event : thermal_mgr_event_t) : List Effect :=
  if event.type = .THERMAL_MGR_EVENT_MEASURE_TEMP_CMD then
    let tempC := sensor.2
    let r := LOG_IF_ERROR_CODE sensor.1
    let errCode := r.1
    let tr := Effect.readTempLM75BD config.devAddr :: r.2
    if errCode != .ERR_CODE_SUCCESS then tr
    else tr ++ [.addTemperatureTelemetry tempC]
  else if event.type = .THERMAL_MGR_EVENT_OS_INTERRUPT then
    let tempC := sensor.2
    let r := LOG_IF_ERROR_CODE sensor.1
    let errCode := r.1
    let tr := Effect.readTempLM75BD config.devAddr :: r.2
    if errCode != .ERR_CODE_SUCCESS then tr
    else if float.lt tempC config.hysteresisThresholdCelsius then
      tr ++ [.safeOperatingConditions]
    else
      tr ++ [.overTemperatureDetected]
  else
    LOG_ERROR_CODE .ERR_CODE_INVALID_EVENT_RECEIVED

/-- One pass through the `while (1)` body of `thermalMgr`. While the queue has no item the task
stays suspended in `xQueueReceive` and the state does not change; the same is taken for a null
handle, which the task does not meet once `initThermalSystemManager` has returned. -/
def thermalMgrIteration (config : lm75bd_config_t) (sensor : error_code_t × float)
    (st : State) : State :=
  match st.thermalMgrQueueHandle with
  | none => st
  | some q =>
    match xQueueReceive q with
    | none => st
    | some (event, q') =>
      { st with
        thermalMgrQueueHandle := some q'
        trace := st.trace ++ thermalMgrHandle config sensor event }

/-- The task loop run for as many passes as there are sensor answers, one answer per pass. -/
def thermalMgr (config : lm75bd_config_t) : List (error_code_t × float) → State → State
  | [], st => st
  | sensor :: rest, st => thermalMgr config rest (thermalMgrIteration config sensor st)

/-! ## Observing runs of the service -/

/-- The collaborator calls made by one pass of the task loop started in `st`. -/
def passEffects (config : lm75bd_config_t) (sensor : error_code_t × float) (st : State) :
    List Effect :=
  (thermalMgrIteration config sensor st).trace.drop st.trace.length

/-- The collaborator calls made by the task loop over the passes `sensors`, started in `st`. -/
def loopEffects (config : lm75bd_config_t) (sensors : List (error_code_t × float))
    (st : State) : List Effect :=
  (thermalMgr config sensors st).trace.drop st.trace.length

/-- The event a pass of the task loop takes out of the queue in `st`, if there is one. -/
def State.nextReceived (st : State) : Option thermal_mgr_event_t :=
  match st.thermalMgrQueueHandle with
  | none => none
  | some q => (xQueueReceive q).map Prod.fst

/-- The event `osHandlerLM75BD` builds. -/
def interruptEvent : thermal_mgr_event_t :=
  { type := .THERMAL_MGR_EVENT_OS_INTERRUPT }

/-- An atomic step of the system: a producer calling `thermalMgrSendEvent` (with `none` for a
null pointer), the interrupt handler `osHandlerLM75BD`, or one pass of the task loop together with
the answer the sensor gives during that pass. -/
inductive Call where
  | sendEvent (event : Option thermal_mgr_event_t)
  | osHandler
  | taskPass (sensor : error_code_t × float)

/-- A state together with the history of a run: the events of the posts that returned
`ERR_CODE_SUCCESS`, in call order, and the events the task received, in order, each with the
sensor answer of its pass. -/
structure Run where
  state : State
  accepted : List thermal_mgr_event_t
  received : List (thermal_mgr_event_t × (error_code_t × float))

/-- A run with an empty history. -/
def Run.start (st : State) : Run :=
  { state := st, accepted := [], received := [] }

/-- One atomic step, with the history kept up to date. -/
def Run.step (config : lm75bd_config_t) (r : Run) : Call → Run
  | .sendEvent event =>
    let res := thermalMgrSendEvent event r.state
    { r with
      state := res.2
      accepted :=
        if res.1 = .ERR_CODE_SUCCESS then r.accepted ++ event.toList else r.accepted }
  | .osHandler =>
    let res := thermalMgrSendEvent (some interruptEvent) r.state
    { r with
      state := osHandlerLM75BD r.state
      accepted :=
        if res.1 = .ERR_CODE_SUCCESS then r.accepted ++ [interruptEvent] else r.accepted }
  | .taskPass sensor =>
    { r with
      state := thermalMgrIteration config sensor r.state
      received :=
        match r.state.nextReceived with
        | none => r.received
        | some event => r.received ++ [(event, sensor)] }

/-- A sequence of atomic steps. -/
def Run.steps (config : lm75bd_config_t) (r : Run) (calls : List Call) : Run :=
  calls.foldl (Run.step config) r

/-- Specification side of the stateless-task property: the notifications one event produces on
its own, from its kind, the result of its own sensor read and the configured threshold. -/
def eventNotifications (threshold : float) (kind : thermal_mgr_event_type_t)
    (read : error_code_t × float) : List Effect :=
  match kind with
  | .THERMAL_MGR_EVENT_MEASURE_TEMP_CMD =>
    if read.1 = .ERR_CODE_SUCCESS then [.addTemperatureTelemetry read.2] else []
  | .THERMAL_MGR_EVENT_OS_INTERRUPT =>
    if read.1 = .ERR_CODE_SUCCESS then
      if float.lt read.2 threshold then [.safeOperatingConditions]
      else [.overTemperatureDetected]
    else []
  | .THERMAL_MGR_EVENT_OTHER _ => []

/-- The collaborator calls of the task loop as a function of the queue contents alone: one
sensor answer is used up per pass, and the passes stop having an effect when the queue is empty. -/
def handleAll (config : lm75bd_config_t) :
    List (error_code_t × float) → List thermal_mgr_event_t → List Effect
  | sensor :: sensors, event :: events =>
    thermalMgrHandle config sensor event ++ handleAll config sensors events
  | _, _ => []

/-- The channel exists, has the configured length and holds no more items than that. -/
def State.ready (st : State) : Prop :=
  ∃ q, st.thermalMgrQueueHandle = some q ∧ q.uxLength = THERMAL_MGR_QUEUE_LENGTH ∧
    q.items.length ≤ THERMAL_MGR_QUEUE_LENGTH

/-! ## Auxiliary facts -/

/-- A post of a non-null event on a queue with room appends the event and succeeds. -/
theorem sendEvent_room (ev : thermal_mgr_event_t) (st : State) (q : Queue)
    (hq : st.thermalMgrQueueHandle = some q) (hroom : q.items.length < q.uxLength) :
    thermalMgrSendEvent (some ev) st =
      (.ERR_CODE_SUCCESS,
        { st with thermalMgrQueueHandle := some { q with items := q.items ++ [ev] } }) := by
  simp [thermalMgrSendEvent, hq, xQueueSend, hroom]

/-- A post of a non-null event on a full queue returns `ERR_CODE_UNKNOWN` and changes nothing. -/
theorem sendEvent_full (ev : thermal_mgr_event_t) (st : State) (q : Queue)
    (hq : st.thermalMgrQueueHandle = some q) (hfull : ¬ q.items.length < q.uxLength) :
    thermalMgrSendEvent (some ev) st = (.ERR_CODE_UNKNOWN, st) := by
  cases st
  simp only at hq
  subst hq
  simp [thermalMgrSendEvent, xQueueSend, hfull]

/-- A pass of the task loop on a non-empty queue removes the oldest event and handles it. -/
theorem iteration_cons (config : lm75bd_config_t) (sensor : error_code_t × float) (st : State)
    (q : Queue) (ev : thermal_mgr_event_t) (rest : List thermal_mgr_event_t)
    (hq : st.thermalMgrQueueHandle = some q) (hitems : q.items = ev :: rest) :
    thermalMgrIteration config sensor st =
      { st with
        thermalMgrQueueHandle := some { q with items := rest }
        trace := st.trace ++ thermalMgrHandle config sensor ev } := by
  simp [thermalMgrIteration, hq, xQueueReceive, hitems]

/-- The collaborator calls of a pass on a non-empty queue are those of handling its head. -/
theorem passEffects_cons (config : lm75bd_config_t) (sensor : error_code_t × float) (st : State)
    (q : Queue) (ev : thermal_mgr_event_t) (rest : List thermal_mgr_event_t)
    (hq : st.thermalMgrQueueHandle = some q) (hitems : q.items = ev :: rest) :
    passEffects config sensor st = thermalMgrHandle config sensor ev := by
  simp [passEffects, iteration_cons config sensor st q ev rest hq hitems]

/-- The queue contents after a pass on a non-empty queue are the former tail. -/
theorem queued_iteration_cons (config : lm75bd_config_t) (sensor : error_code_t × float)
    (st : State) (q : Queue) (ev : thermal_mgr_event_t) (rest : List thermal_mgr_event_t)
    (hq : st.thermalMgrQueueHandle = some q) (hitems : q.items = ev :: rest) :
    (thermalMgrIteration config sensor st).queued = rest := by
  simp [iteration_cons config sensor st q ev rest hq hitems, State.queued]

/-- Initialisation gives a ready, empty channel. -/
theorem ready_init (config : lm75bd_config_t) (st : State) :
    (initThermalSystemManager config st).ready ∧ (initThermalSystemManager config st).queued = [] := by
  refine ⟨⟨{ uxLength := THERMAL_MGR_QUEUE_LENGTH, items := [] }, rfl, rfl, ?_⟩, rfl⟩
  simp

/-- Posting keeps the channel ready. -/
theorem ready_sendEvent (event : Option thermal_mgr_event_t) (st : State) (h : st.ready) :
    (thermalMgrSendEvent event st).2.ready := by
  obtain ⟨q, hq, hlen, hle⟩ := h
  cases event with
  | none => exact ⟨q, by simp [thermalMgrSendEvent, hq], hlen, hle⟩
  | some ev =>
    by_cases hroom : q.items.length < q.uxLength
    · rw [sendEvent_room ev st q hq hroom]
      refine ⟨{ q with items := q.items ++ [ev] }, rfl, hlen, ?_⟩
      simp only [List.length_append, List.length_singleton]
      omega
    · rw [sendEvent_full ev st q hq hroom]
      exact ⟨q, hq, hlen, hle⟩

/-- A pass of the task loop keeps the channel ready. -/
theorem ready_iteration (config : lm75bd_config_t) (sensor : error_code_t × float) (st : State)
    (h : st.ready) : (thermalMgrIteration config sensor st).ready := by
  obtain ⟨q, hq, hlen, hle⟩ := h
  cases hitems : q.items with
  | nil => exact ⟨q, by simp [thermalMgrIteration, hq, xQueueReceive, hitems], hlen, hle⟩
  | cons ev rest =>
    rw [iteration_cons config sensor st q ev rest hq hitems]
    refine ⟨{ q with items := rest }, rfl, hlen, ?_⟩
    rw [hitems] at hle
    simp only [List.length_cons] at hle
    simp only
    omega

/-- Every atomic step keeps the channel ready. -/
theorem ready_step (config : lm75bd_config_t) (r : Run) (c : Call) (h : r.state.ready) :
    (r.step config c).state.ready := by
  cases c with
  | sendEvent event => exact ready_sendEvent event r.state h
  | osHandler => exact ready_sendEvent (some interruptEvent) r.state h
  | taskPass sensor => exact ready_iteration config sensor r.state h

/-- Every sequence of atomic steps keeps the channel ready. -/
theorem ready_steps (config : lm75bd_config_t) (calls : List Call) (r : Run)
    (h : r.state.ready) : (r.steps config calls).state.ready := by
  induction calls generalizing r with
  | nil => exact h
  | cons c cs ih => exact ih (r.step config c) (ready_step config r c h)

/-- The effect of a post on the history and on the channel contents: the event is added to both
when the post succeeds, and to neither otherwise. -/
theorem sendEvent_queued (event : Option thermal_mgr_event_t) (st : State) :
    (thermalMgrSendEvent event st).2.queued =
      if (thermalMgrSendEvent event st).1 = .ERR_CODE_SUCCESS then st.queued ++ event.toList
      else st.queued := by
  cases event with
  | none => simp [thermalMgrSendEvent]
  | some ev =>
    cases hq : st.thermalMgrQueueHandle with
    | none => simp [thermalMgrSendEvent, hq]
    | some q =>
      by_cases hroom : q.items.length < q.uxLength
      · rw [sendEvent_room ev st q hq hroom]
        simp [State.queued, hq]
      · rw [sendEvent_full ev st q hq hroom]
        simp

/-- The received events followed by the queued ones are the accepted ones: kept by every step. -/
theorem fifo_step (config : lm75bd_config_t) (r : Run) (c : Call)
    (h : r.received.map Prod.fst ++ r.state.queued = r.accepted) :
    (r.step config c).received.map Prod.fst ++ (r.step config c).state.queued
      = (r.step config c).accepted := by
  cases c with
  | sendEvent event =>
    simp only [Run.step]
    rw [sendEvent_queued]
    split <;> simp [← h]
  | osHandler =>
    simp only [Run.step, osHandlerLM75BD]
    have hq := sendEvent_queued (some interruptEvent) r.state
    simp only [interruptEvent] at hq ⊢
    rw [hq]
    split <;> simp [← h]
  | taskPass sensor =>
    simp only [Run.step]
    cases hq : r.state.thermalMgrQueueHandle with
    | none => simpa [thermalMgrIteration, State.nextReceived, hq] using h
    | some q =>
      cases hitems : q.items with
      | nil =>
        simpa [thermalMgrIteration, State.nextReceived, hq, xQueueReceive, hitems] using h
      | cons ev rest =>
        rw [queued_iteration_cons config sensor r.state q ev rest hq hitems]
        simp [State.nextReceived, hq, xQueueReceive, hitems, ← h, State.queued]

/-- The received events followed by the queued ones are the accepted ones: kept by every
sequence of steps. -/
theorem fifo_steps (config : lm75bd_config_t) (calls : List Call) (r : Run)
    (h : r.received.map Prod.fst ++ r.state.queued = r.accepted) :
    (r.steps config calls).received.map Prod.fst ++ (r.steps config calls).state.queued
      = (r.steps config calls).accepted := by
  induction calls generalizing r with
  | nil => exact h
  | cons c cs ih => exact ih (r.step config c) (fifo_step config r c h)

/-- Passes of the task loop alone accept nothing and remove one queued event each. -/
theorem drain_steps (config : lm75bd_config_t) (sensors : List (error_code_t × float)) (r : Run) :
    (r.steps config (sensors.map Call.taskPass)).accepted = r.accepted ∧
      (r.steps config (sensors.map Call.taskPass)).state.queued
        = r.state.queued.drop sensors.length := by
  induction sensors generalizing r with
  | nil => simp [Run.steps]
  | cons s ss ih =>
    have h := ih (r.step config (.taskPass s))
    simp only [List.map_cons, Run.steps, List.foldl_cons] at h ⊢
    refine ⟨h.1, ?_⟩
    rw [h.2]
    simp only [Run.step]
    cases hq : r.state.thermalMgrQueueHandle with
    | none => simp [thermalMgrIteration, hq, State.queued]
    | some q =>
      cases hitems : q.items with
      | nil => simp [thermalMgrIteration, hq, xQueueReceive, hitems, State.queued]
      | cons ev rest =>
        rw [queued_iteration_cons config s r.state q ev rest hq hitems]
        simp [State.queued, hq, hitems]

/-- Where `a >= b` holds, `a < b` does not. -/
theorem float_ge_not_lt (a b : float) (h : float.ge a b = true) : float.lt a b = false := by
  cases a <;> cases b <;> simp_all [float.ge, float.lt]

/-- The calls made for a measure command whose sensor read succeeds. -/
theorem handle_measure_ok (config : lm75bd_config_t) (tempC : float) :
    thermalMgrHandle config (.ERR_CODE_SUCCESS, tempC)
        { type := .THERMAL_MGR_EVENT_MEASURE_TEMP_CMD }
      = [.readTempLM75BD config.devAddr, .addTemperatureTelemetry tempC] := by
  simp [thermalMgrHandle, LOG_IF_ERROR_CODE]

/-- The calls made for an interrupt whose sensor read succeeds. -/
theorem handle_interrupt_ok (config : lm75bd_config_t) (tempC : float) :
    thermalMgrHandle config (.ERR_CODE_SUCCESS, tempC)
        { type := .THERMAL_MGR_EVENT_OS_INTERRUPT }
      = [.readTempLM75BD config.devAddr,
          if float.lt tempC config.hysteresisThresholdCelsius then .safeOperatingConditions
          else .overTemperatureDetected] := by
  by_cases hlt : float.lt tempC config.hysteresisThresholdCelsius = true <;>
    simp [thermalMgrHandle, LOG_IF_ERROR_CODE, hlt]

/-- The calls made for a measure command or an interrupt whose sensor read fails. -/
theorem handle_read_failed (config : lm75bd_config_t) (errCode : error_code_t) (tempC : float)
    (ev : thermal_mgr_event_t)
    (hkind : ev.type = .THERMAL_MGR_EVENT_MEASURE_TEMP_CMD ∨
      ev.type = .THERMAL_MGR_EVENT_OS_INTERRUPT)
    (herr : errCode ≠ .ERR_CODE_SUCCESS) :
    thermalMgrHandle config (errCode, tempC) ev
      = [.readTempLM75BD config.devAddr, .logErrorCode errCode] := by
  rcases hkind with h | h <;> simp [thermalMgrHandle, LOG_IF_ERROR_CODE, LOG_ERROR_CODE, h, herr]

/-- The calls made for an event of any other kind. -/
theorem handle_other (config : lm75bd_config_t) (sensor : error_code_t × float)
    (ev : thermal_mgr_event_t)
    (hcmd : ev.type ≠ .THERMAL_MGR_EVENT_MEASURE_TEMP_CMD)
    (hint : ev.type ≠ .THERMAL_MGR_EVENT_OS_INTERRUPT) :
    thermalMgrHandle config sensor ev = [.logErrorCode .ERR_CODE_INVALID_EVENT_RECEIVED] := by
  simp [thermalMgrHandle, LOG_ERROR_CODE, hcmd, hint]

/-- The notifications made for an event are those of the specification side. -/
theorem notifications_handle (config : lm75bd_config_t) (sensor : error_code_t × float)
    (ev : thermal_mgr_event_t) :
    notifications (thermalMgrHandle config sensor ev)
      = eventNotifications config.hysteresisThresholdCelsius ev.type sensor := by
  obtain ⟨errCode, tempC⟩ := sensor
  obtain ⟨kind⟩ := ev
  cases kind with
  | THERMAL_MGR_EVENT_MEASURE_TEMP_CMD =>
    by_cases herr : errCode = .ERR_CODE_SUCCESS
    · subst herr
      rw [handle_measure_ok]
      simp [notifications, eventNotifications, Effect.isNotification]
    · rw [handle_read_failed config errCode tempC _ (Or.inl rfl) herr]
      simp [notifications, eventNotifications, Effect.isNotification, herr]
  | THERMAL_MGR_EVENT_OS_INTERRUPT =>
    by_cases herr : errCode = .ERR_CODE_SUCCESS
    · subst herr
      rw [handle_interrupt_ok]
      by_cases hlt : float.lt tempC config.hysteresisThresholdCelsius = true <;>
        simp [notifications, eventNotifications, Effect.isNotification, hlt]
    · rw [handle_read_failed config errCode tempC _ (Or.inr rfl) herr]
      simp [notifications, eventNotifications, Effect.isNotification, herr]
  | THERMAL_MGR_EVENT_OTHER raw =>
    rw [handle_other config _ _ (by simp) (by simp)]
    simp [notifications, eventNotifications, Effect.isNotification]

/-- The task loop appends to the trace the calls determined by the queue contents, and leaves
the queue with the events it has not reached. -/
theorem loop_state (config : lm75bd_config_t) (sensors : List (error_code_t × float))
    (st : State) :
    (thermalMgr config sensors st).trace = st.trace ++ handleAll config sensors st.queued ∧
      (thermalMgr config sensors st).queued = st.queued.drop sensors.length := by
  induction sensors generalizing st with
  | nil => simp [thermalMgr, handleAll]
  | cons s ss ih =>
    simp only [thermalMgr]
    cases hq : st.thermalMgrQueueHandle with
    | none =>
      have h : thermalMgrIteration config s st = st := by simp [thermalMgrIteration, hq]
      rw [h, (ih st).1, (ih st).2]
      simp [State.queued, hq, handleAll]
    | some q =>
      cases hitems : q.items with
      | nil =>
        have h : thermalMgrIteration config s st = st := by
          simp [thermalMgrIteration, hq, xQueueReceive, hitems]
        rw [h, (ih st).1, (ih st).2]
        simp [State.queued, hq, hitems, handleAll]
      | cons ev rest =>
        rw [(ih _).1, (ih _).2, queued_iteration_cons config s st q ev rest hq hitems,
          iteration_cons config s st q ev rest hq hitems]
        simp [State.queued, hq, hitems, handleAll]

/-- The calls of the task loop depend on the state through the queue contents only. -/
theorem loopEffects_eq (config : lm75bd_config_t) (sensors : List (error_code_t × float))
    (st : State) : loopEffects config sensors st = handleAll config sensors st.queued := by
  simp [loopEffects, (loop_state config sensors st).1]


/-- The task loop started on a non-empty queue handles the oldest event with the first sensor
answer and goes on, with the remaining answers, on the rest of the queue. -/
theorem loop_cons (config : lm75bd_config_t) (sensor : error_code_t × float)
    (sensors : List (error_code_t × float)) (st : State) (q : Queue) (ev : thermal_mgr_event_t)
    (rest : List thermal_mgr_event_t)
    (hq : st.thermalMgrQueueHandle = some q) (hitems : q.items = ev :: rest) :
    loopEffects config (sensor :: sensors) st
        = thermalMgrHandle config sensor ev
          ++ loopEffects config sensors
              { st with thermalMgrQueueHandle := some { q with items := rest } } ∧
      (thermalMgr config (sensor :: sensors) st).queued = rest.drop sensors.length := by
  have hqd : st.queued = ev :: rest := by simp [State.queued, hq, hitems]
  refine ⟨?_, ?_⟩
  · rw [loopEffects_eq, loopEffects_eq, hqd]
    simp [handleAll, State.queued]
  · rw [(loop_state config (sensor :: sensors) st).2, hqd]
    simp

/-- Posting makes no collaborator call. -/
theorem sendEvent_trace (event : Option thermal_mgr_event_t) (st : State) :
    (thermalMgrSendEvent event st).2.trace = st.trace := by
  cases event with
  | none => simp [thermalMgrSendEvent]
  | some ev =>
    cases hq : st.thermalMgrQueueHandle with
    | none => simp [thermalMgrSendEvent, hq]
    | some q =>
      by_cases hroom : q.items.length < q.uxLength
      · rw [sendEvent_room ev st q hq hroom]
      · rw [sendEvent_full ev st q hq hroom]

/-- The notifications made since the trace had length `n` are those of the specification side
for the received events: kept by every step. -/
theorem notifications_step (config : lm75bd_config_t) (r : Run) (c : Call) (n : Nat)
    (hn : n ≤ r.state.trace.length)
    (h : notifications (r.state.trace.drop n)
      = r.received.flatMap
          (fun p => eventNotifications config.hysteresisThresholdCelsius p.1.type p.2)) :
    n ≤ (r.step config c).state.trace.length ∧
      notifications ((r.step config c).state.trace.drop n)
        = (r.step config c).received.flatMap
            (fun p => eventNotifications config.hysteresisThresholdCelsius p.1.type p.2) := by
  cases c with
  | sendEvent event =>
    simp only [Run.step, sendEvent_trace]
    exact ⟨hn, h⟩
  | osHandler =>
    simp only [Run.step, osHandlerLM75BD, sendEvent_trace]
    exact ⟨hn, h⟩
  | taskPass sensor =>
    simp only [Run.step]
    cases hq : r.state.thermalMgrQueueHandle with
    | none =>
      have hst : thermalMgrIteration config sensor r.state = r.state := by
        simp [thermalMgrIteration, hq]
      simp only [hst, State.nextReceived, hq]
      exact ⟨hn, h⟩
    | some q =>
      cases hitems : q.items with
      | nil =>
        have hst : thermalMgrIteration config sensor r.state = r.state := by
          simp [thermalMgrIteration, hq, xQueueReceive, hitems]
        simp only [hst, State.nextReceived, hq, xQueueReceive, hitems, Option.map_none']
        exact ⟨hn, h⟩
      | cons ev rest =>
        rw [iteration_cons config sensor r.state q ev rest hq hitems]
        simp only [State.nextReceived, hq, xQueueReceive, hitems, Option.map_some',
          List.length_append, List.flatMap_append]
        refine ⟨by omega, ?_⟩
        rw [List.drop_append_of_le_length hn]
        simp [notifications, List.filter_append] at h ⊢
        rw [h]
        have hh := notifications_handle config sensor ev
        simp only [notifications] at hh
        rw [hh]

/-- The notifications made since the trace had length `n` are those of the specification side
for the received events: kept by every sequence of steps. -/
theorem notifications_steps (config : lm75bd_config_t) (calls : List Call) (r : Run) (n : Nat)
    (hn : n ≤ r.state.trace.length)
    (h : notifications (r.state.trace.drop n)
      = r.received.flatMap
          (fun p => eventNotifications config.hysteresisThresholdCelsius p.1.type p.2)) :
    notifications ((r.steps config calls).state.trace.drop n)
      = (r.steps config calls).received.flatMap
          (fun p => eventNotifications config.hysteresisThresholdCelsius p.1.type p.2) := by
  induction calls generalizing r with
  | nil => exact h
  | cons c cs ih =>
    exact ih (r.step config c) (notifications_step config r c n hn h).1
      (notifications_step config r c n hn h).2

/-! ## Posting -/

/-- C1: in every state (queue not created, empty, partly filled or full), `thermalMgrSendEvent`
called with a null event pointer returns `ERR_CODE_INVALID_ARG` and leaves the whole state, so
also the contents of the channel, unchanged: what the task can receive afterwards is what it could
receive before the call. -/
theorem sendEvent_null (st : State) :
    thermalMgrSendEvent none st = (.ERR_CODE_INVALID_ARG, st) ∧
      (thermalMgrSendEvent none st).2.queued = st.queued ∧
      (thermalMgrSendEvent none st).2.nextReceived = st.nextReceived := by
  simp [thermalMgrSendEvent]

/-- C2 (evaluation of the code): on the initialised channel filled with ten interrupt events, a
post of a non-null event returns `ERR_CODE_UNKNOWN`, which is not `ERR_CODE_QUEUE_FULL`, and the
channel is left as it was. -/
theorem full_channel_post_returns_unknown :
    let config : lm75bd_config_t := { devAddr := 0x4F, hysteresisThresholdCelsius := .finite 80 }
    let st := ((Run.start (initThermalSystemManager config State.boot)).steps config
      (List.replicate 10 Call.osHandler)).state
    st.queued.length = THERMAL_MGR_QUEUE_LENGTH ∧
      (thermalMgrSendEvent (some { type := .THERMAL_MGR_EVENT_MEASURE_TEMP_CMD }) st).1
        = .ERR_CODE_UNKNOWN ∧
      (thermalMgrSendEvent (some { type := .THERMAL_MGR_EVENT_MEASURE_TEMP_CMD }) st).1
        ≠ .ERR_CODE_QUEUE_FULL ∧
      (thermalMgrSendEvent (some { type := .THERMAL_MGR_EVENT_MEASURE_TEMP_CMD }) st).2.queued
        = st.queued := by
  decide

/-- C3: before `initThermalSystemManager` has created the queue (the handle is null), a post of
any non-null event returns `ERR_CODE_INVALID_STATE` and leaves the state unchanged; nothing is
enqueued. -/
theorem sendEvent_before_init (ev : thermal_mgr_event_t) (st : State)
    (hnull : st.thermalMgrQueueHandle = none) :
    thermalMgrSendEvent (some ev) st = (.ERR_CODE_INVALID_STATE, st) ∧
      (thermalMgrSendEvent (some ev) st).2.queued = [] := by
  simp [thermalMgrSendEvent, hnull, State.queued]

/-- Witness for C3: a measure command posted in the boot state. -/
theorem sendEvent_before_init_witness :
    State.boot.thermalMgrQueueHandle = none ∧
      (thermalMgrSendEvent (some { type := .THERMAL_MGR_EVENT_MEASURE_TEMP_CMD }) State.boot
          = (.ERR_CODE_INVALID_STATE, State.boot) ∧
        (thermalMgrSendEvent (some { type := .THERMAL_MGR_EVENT_MEASURE_TEMP_CMD })
          State.boot).2.queued = []) :=
  ⟨rfl, sendEvent_before_init { type := .THERMAL_MGR_EVENT_MEASURE_TEMP_CMD } State.boot rfl⟩

/-! ## The channel: order and bound -/

/-- C4: let `r` be the run made of any sequence `calls` of atomic steps (posts through
`thermalMgrSendEvent`, including null ones, calls of `osHandlerLM75BD`, passes of the task loop)
from initialisation on. The events received by the task followed by the events still queued are
exactly the events of the posts that returned `ERR_CODE_SUCCESS`, in call order. Once the task has
made as many further passes as the queue is long (the run `r'`), it has received exactly those
events: none is lost, duplicated or reordered, and no event of a failed post is delivered. -/
theorem fifo_delivery (config : lm75bd_config_t) (st0 : State) (calls : List Call)
    (sensors : List (error_code_t × float)) (r r' : Run)
    (hr : r = (Run.start (initThermalSystemManager config st0)).steps config calls)
    (hr' : r' = r.steps config (sensors.map Call.taskPass))
    (hdrain : THERMAL_MGR_QUEUE_LENGTH ≤ sensors.length) :
    r.received.map Prod.fst ++ r.state.queued = r.accepted ∧
      r'.accepted = r.accepted ∧
      r'.received.map Prod.fst = r.accepted := by
  have hstart : (Run.start (initThermalSystemManager config st0)).received.map Prod.fst
      ++ (Run.start (initThermalSystemManager config st0)).state.queued
      = (Run.start (initThermalSystemManager config st0)).accepted := by
    simp [Run.start, (ready_init config st0).2]
  have hready : (Run.start (initThermalSystemManager config st0)).state.ready :=
    (ready_init config st0).1
  have hfifo := fifo_steps config calls _ hstart
  have hrdy := ready_steps config calls _ hready
  rw [← hr] at hfifo hrdy
  have hdr := drain_steps config sensors r
  have hfifo' := fifo_steps config (sensors.map Call.taskPass) r hfifo
  rw [← hr'] at hdr hfifo'
  refine ⟨hfifo, hdr.1, ?_⟩
  obtain ⟨q, hq, -, hle⟩ := hrdy
  have hlen : r.state.queued.length ≤ sensors.length := by
    simp only [State.queued, hq]
    omega
  rw [hdr.2, List.drop_of_length_le hlen, List.append_nil, hdr.1] at hfifo'
  exact hfifo'

/-- Witness for C4: a measure command, an interrupt and a null post, one pass of the task loop,
a further interrupt, then ten passes. -/
theorem fifo_delivery_witness :
    THERMAL_MGR_QUEUE_LENGTH
        ≤ (List.replicate 10 (error_code_t.ERR_CODE_SUCCESS, float.finite 25)).length ∧
    (((Run.start (initThermalSystemManager
            { devAddr := 0x4F, hysteresisThresholdCelsius := .finite 80 } State.boot)).steps
          { devAddr := 0x4F, hysteresisThresholdCelsius := .finite 80 }
          [.sendEvent (some { type := .THERMAL_MGR_EVENT_MEASURE_TEMP_CMD }), .osHandler,
            .sendEvent none, .taskPass (.ERR_CODE_SUCCESS, .finite 25), .osHandler]).steps
        { devAddr := 0x4F, hysteresisThresholdCelsius := .finite 80 }
        ((List.replicate 10 (error_code_t.ERR_CODE_SUCCESS, float.finite 25)).map
          Call.taskPass)).received.map Prod.fst
      = [{ type := .THERMAL_MGR_EVENT_MEASURE_TEMP_CMD }, interruptEvent, interruptEvent] :=
  ⟨by decide,
   (fifo_delivery { devAddr := 0x4F, hysteresisThresholdCelsius := .finite 80 } State.boot
      [.sendEvent (some { type := .THERMAL_MGR_EVENT_MEASURE_TEMP_CMD }), .osHandler,
        .sendEvent none, .taskPass (.ERR_CODE_SUCCESS, .finite 25), .osHandler]
      (List.replicate 10 (.ERR_CODE_SUCCESS, .finite 25)) _ _ rfl rfl (by decide)).2.2.trans
    (by decide)⟩

/-- C10: let `st` be the state reached from initialisation by any sequence of posts
(`thermalMgrSendEvent`, `osHandlerLM75BD`) and passes of the task loop. The channel holds at most
`THERMAL_MGR_QUEUE_LENGTH = 10` events in `st`. A post made while it holds fewer than 10 succeeds
and appends exactly the posted event at the tail (`osHandlerLM75BD` appends exactly one interrupt
event); a post made while it holds 10 leaves the state, so the contents of the channel,
unchanged. -/
theorem channel_bounded (config : lm75bd_config_t) (st0 : State) (calls : List Call) (st : State)
    (hst : st = ((Run.start (initThermalSystemManager config st0)).steps config calls).state) :
    THERMAL_MGR_QUEUE_LENGTH = 10 ∧
    st.queued.length ≤ 10 ∧
    (∀ ev : thermal_mgr_event_t, st.queued.length < 10 →
      (thermalMgrSendEvent (some ev) st).1 = .ERR_CODE_SUCCESS ∧
      (thermalMgrSendEvent (some ev) st).2.queued = st.queued ++ [ev]) ∧
    (st.queued.length < 10 →
      (osHandlerLM75BD st).queued = st.queued ++ [{ type := .THERMAL_MGR_EVENT_OS_INTERRUPT }]) ∧
    (∀ ev : thermal_mgr_event_t, st.queued.length = 10 →
      (thermalMgrSendEvent (some ev) st).2 = st) ∧
    (st.queued.length = 10 → osHandlerLM75BD st = st) := by
  have hr := ready_steps config calls (Run.start (initThermalSystemManager config st0))
    (ready_init config st0).1
  rw [← hst] at hr
  obtain ⟨q, hq, hlen, hle⟩ := hr
  have hten : THERMAL_MGR_QUEUE_LENGTH = 10 := rfl
  have hqueued : st.queued = q.items := by simp [State.queued, hq]
  rw [hqueued]
  rw [hten] at hlen hle
  refine ⟨rfl, hle, ?_, ?_, ?_, ?_⟩
  · intro ev hlt
    have hroom : q.items.length < q.uxLength := by omega
    rw [sendEvent_room ev st q hq hroom]
    simp [State.queued]
  · intro hlt
    have hroom : q.items.length < q.uxLength := by omega
    simp only [osHandlerLM75BD]
    rw [sendEvent_room _ st q hq hroom]
    simp [State.queued]
  · intro ev heq
    have hfull : ¬ q.items.length < q.uxLength := by omega
    rw [sendEvent_full ev st q hq hfull]
  · intro heq
    have hfull : ¬ q.items.length < q.uxLength := by omega
    simp only [osHandlerLM75BD]
    rw [sendEvent_full _ st q hq hfull]

/-- Witness for C10: after twelve interrupts the channel holds ten events, and a further post of
a measure command leaves the state as it is. -/
theorem channel_bounded_witness :
    ((Run.start (initThermalSystemManager
          { devAddr := 0x4F, hysteresisThresholdCelsius := .finite 80 } State.boot)).steps
        { devAddr := 0x4F, hysteresisThresholdCelsius := .finite 80 }
        (List.replicate 12 Call.osHandler)).state.queued.length = 10 ∧
    (thermalMgrSendEvent (some { type := .THERMAL_MGR_EVENT_MEASURE_TEMP_CMD })
        ((Run.start (initThermalSystemManager
            { devAddr := 0x4F, hysteresisThresholdCelsius := .finite 80 } State.boot)).steps
          { devAddr := 0x4F, hysteresisThresholdCelsius := .finite 80 }
          (List.replicate 12 Call.osHandler)).state).2
      = ((Run.start (initThermalSystemManager
            { devAddr := 0x4F, hysteresisThresholdCelsius := .finite 80 } State.boot)).steps
          { devAddr := 0x4F, hysteresisThresholdCelsius := .finite 80 }
          (List.replicate 12 Call.osHandler)).state :=
  ⟨by decide,
   (channel_bounded { devAddr := 0x4F, hysteresisThresholdCelsius := .finite 80 } State.boot
      (List.replicate 12 Call.osHandler) _ rfl).2.2.2.2.1
      { type := .THERMAL_MGR_EVENT_MEASURE_TEMP_CMD } (by decide)⟩

/-! ## The task loop -/

/-- C5: for every configuration (so every hysteresis threshold) and every reading `tempC` of a
successful sensor read, the pass of the task loop that receives an interrupt event makes exactly
one notification: `safeOperatingConditions` when `tempC < threshold` and
`overTemperatureDetected` when `tempC >= threshold`, the threshold itself included. -/
theorem interrupt_notification (config : lm75bd_config_t) (tempC : float) (st : State)
    (q : Queue) (rest : List thermal_mgr_event_t)
    (hq : st.thermalMgrQueueHandle = some q)
    (hitems : q.items = { type := .THERMAL_MGR_EVENT_OS_INTERRUPT } :: rest) :
    (notifications (passEffects config (.ERR_CODE_SUCCESS, tempC) st)).length = 1 ∧
    (float.lt tempC config.hysteresisThresholdCelsius = true →
      notifications (passEffects config (.ERR_CODE_SUCCESS, tempC) st)
        = [.safeOperatingConditions]) ∧
    (float.ge tempC config.hysteresisThresholdCelsius = true →
      notifications (passEffects config (.ERR_CODE_SUCCESS, tempC) st)
        = [.overTemperatureDetected]) := by
  rw [passEffects_cons config _ st q _ rest hq hitems, handle_interrupt_ok]
  refine ⟨?_, ?_, ?_⟩
  · by_cases hlt : float.lt tempC config.hysteresisThresholdCelsius = true <;>
      simp [notifications, Effect.isNotification, hlt]
  · intro hlt
    simp [notifications, Effect.isNotification, hlt]
  · intro hge
    simp [notifications, Effect.isNotification, float_ge_not_lt _ _ hge]

/-- Witness for C5: with the threshold at 40.0 and one interrupt queued, the reading 39.9 gives
the safe notification and the reading 40.0 the over-temperature notification. -/
theorem interrupt_notification_witness :
    notifications (passEffects { devAddr := 0x4F, hysteresisThresholdCelsius := .finite 40 }
        (.ERR_CODE_SUCCESS, .finite (399 / 10))
        (osHandlerLM75BD (initThermalSystemManager
          { devAddr := 0x4F, hysteresisThresholdCelsius := .finite 40 } State.boot)))
      = [.safeOperatingConditions] ∧
    notifications (passEffects { devAddr := 0x4F, hysteresisThresholdCelsius := .finite 40 }
        (.ERR_CODE_SUCCESS, .finite 40)
        (osHandlerLM75BD (initThermalSystemManager
          { devAddr := 0x4F, hysteresisThresholdCelsius := .finite 40 } State.boot)))
      = [.overTemperatureDetected] :=
  ⟨(interrupt_notification { devAddr := 0x4F, hysteresisThresholdCelsius := .finite 40 }
      (.finite (399 / 10)) _ { uxLength := 10, items := [interruptEvent] } [] rfl rfl).2.1
      (by norm_num [float.lt]),
   (interrupt_notification { devAddr := 0x4F, hysteresisThresholdCelsius := .finite 40 }
      (.finite 40) _ { uxLength := 10, items := [interruptEvent] } [] rfl rfl).2.2
      (by norm_num [float.ge])⟩

/-- C6: for every reading `tempC` of a successful sensor read and every configuration, the pass
of the task loop that receives a measure command makes exactly one notification, the telemetry
carrying `tempC` unchanged, so no safe or over-temperature notification; the calls made are the
same whatever the threshold in the configuration. -/
theorem measure_telemetry (config : lm75bd_config_t) (tempC : float) (st : State)
    (q : Queue) (rest : List thermal_mgr_event_t)
    (hq : st.thermalMgrQueueHandle = some q)
    (hitems : q.items = { type := .THERMAL_MGR_EVENT_MEASURE_TEMP_CMD } :: rest) :
    notifications (passEffects config (.ERR_CODE_SUCCESS, tempC) st)
      = [.addTemperatureTelemetry tempC] ∧
    ∀ threshold : float,
      passEffects { config with hysteresisThresholdCelsius := threshold }
          (.ERR_CODE_SUCCESS, tempC) st
        = passEffects config (.ERR_CODE_SUCCESS, tempC) st := by
  refine ⟨?_, fun threshold => ?_⟩
  · rw [passEffects_cons config _ st q _ rest hq hitems, handle_measure_ok]
    simp [notifications, Effect.isNotification]
  · rw [passEffects_cons config _ st q _ rest hq hitems, passEffects_cons _ _ st q _ rest hq hitems,
      handle_measure_ok, handle_measure_ok]

/-- Witness for C6: the reading 25.0 for a queued measure command gives one telemetry
notification carrying 25.0. -/
theorem measure_telemetry_witness :
    notifications (passEffects { devAddr := 0x4F, hysteresisThresholdCelsius := .finite 80 }
        (.ERR_CODE_SUCCESS, .finite 25)
        (thermalMgrSendEvent (some { type := .THERMAL_MGR_EVENT_MEASURE_TEMP_CMD })
          (initThermalSystemManager
            { devAddr := 0x4F, hysteresisThresholdCelsius := .finite 80 } State.boot)).2)
      = [.addTemperatureTelemetry (.finite 25)] :=
  (measure_telemetry { devAddr := 0x4F, hysteresisThresholdCelsius := .finite 80 } (.finite 25) _
    { uxLength := 10, items := [{ type := .THERMAL_MGR_EVENT_MEASURE_TEMP_CMD }] } [] rfl rfl).1

/-- C7: when the task loop `thermalMgr` receives a measure command or an interrupt event and the
sensor read returns a code other than `ERR_CODE_SUCCESS`, the pass reads the sensor, logs that
code and makes no notification, and the event is removed from the queue. The loop then goes back
to the receive step: run over the failing pass and a further one, it makes the two calls of the
failed pass followed by the calls of handling the next queued event on its own; run over any
further passes, it makes the calls of the failed pass followed by exactly the calls it makes on
the rest of the queue, the same calls, and the same queue left, as after a first pass whose read
had succeeded. -/
theorem read_failure_recovery (config : lm75bd_config_t) (errCode : error_code_t)
    (tempC : float) (st : State) (q : Queue) (ev : thermal_mgr_event_t)
    (rest : List thermal_mgr_event_t)
    (hq : st.thermalMgrQueueHandle = some q) (hitems : q.items = ev :: rest)
    (hkind : ev.type = .THERMAL_MGR_EVENT_MEASURE_TEMP_CMD ∨
      ev.type = .THERMAL_MGR_EVENT_OS_INTERRUPT)
    (herr : errCode ≠ .ERR_CODE_SUCCESS) :
    passEffects config (errCode, tempC) st
      = [.readTempLM75BD config.devAddr, .logErrorCode errCode] ∧
    notifications (passEffects config (errCode, tempC) st) = [] ∧
    (thermalMgrIteration config (errCode, tempC) st).queued = rest ∧
    (∀ (next : thermal_mgr_event_t) (rest' : List thermal_mgr_event_t)
        (sensor : error_code_t × float), rest = next :: rest' →
      passEffects config sensor (thermalMgrIteration config (errCode, tempC) st)
        = thermalMgrHandle config sensor next) ∧
    (∀ (tempOk : float) (sensors : List (error_code_t × float)),
      loopEffects config sensors (thermalMgrIteration config (errCode, tempC) st)
        = loopEffects config sensors (thermalMgrIteration config (.ERR_CODE_SUCCESS, tempOk) st) ∧
      (thermalMgr config sensors (thermalMgrIteration config (errCode, tempC) st)).queued
        = (thermalMgr config sensors
            (thermalMgrIteration config (.ERR_CODE_SUCCESS, tempOk) st)).queued) ∧
    loopEffects config [(errCode, tempC)] st
      = [.readTempLM75BD config.devAddr, .logErrorCode errCode] ∧
    (thermalMgr config [(errCode, tempC)] st).queued = rest ∧
    (∀ (next : thermal_mgr_event_t) (rest' : List thermal_mgr_event_t)
        (sensor : error_code_t × float), rest = next :: rest' →
      loopEffects config [(errCode, tempC), sensor] st
        = [.readTempLM75BD config.devAddr, .logErrorCode errCode]
          ++ thermalMgrHandle config sensor next ∧
      (thermalMgr config [(errCode, tempC), sensor] st).queued = rest') ∧
    (∀ (tempOk : float) (sensors : List (error_code_t × float)),
      loopEffects config ((errCode, tempC) :: sensors) st
        = [.readTempLM75BD config.devAddr, .logErrorCode errCode]
          ++ loopEffects config sensors
              { st with thermalMgrQueueHandle := some { q with items := rest } } ∧
      loopEffects config ((.ERR_CODE_SUCCESS, tempOk) :: sensors) st
        = thermalMgrHandle config (.ERR_CODE_SUCCESS, tempOk) ev
          ++ loopEffects config sensors
              { st with thermalMgrQueueHandle := some { q with items := rest } } ∧
      (thermalMgr config ((errCode, tempC) :: sensors) st).queued
        = rest.drop sensors.length ∧
      (thermalMgr config ((.ERR_CODE_SUCCESS, tempOk) :: sensors) st).queued
        = rest.drop sensors.length) := by
  have heff := passEffects_cons config (errCode, tempC) st q ev rest hq hitems
  have hfail := handle_read_failed config errCode tempC ev hkind herr
  rw [hfail] at heff
  have hqd := queued_iteration_cons config (errCode, tempC) st q ev rest hq hitems
  refine ⟨heff, ?_, hqd, ?_, ?_, ?_, ?_, ?_, ?_⟩
  · rw [heff]
    simp [notifications, Effect.isNotification]
  · intro next rest' sensor hrest
    rw [iteration_cons config (errCode, tempC) st q ev rest hq hitems]
    exact passEffects_cons config sensor _ { q with items := rest } next rest' rfl hrest
  · intro tempOk sensors
    have hqd' := queued_iteration_cons config (.ERR_CODE_SUCCESS, tempOk) st q ev rest hq hitems
    rw [loopEffects_eq, loopEffects_eq, (loop_state config sensors _).2,
      (loop_state config sensors _).2, hqd, hqd']
    exact ⟨rfl, rfl⟩
  · exact heff
  · exact hqd
  · intro next rest' sensor hrest
    have h1 := loop_cons config (errCode, tempC) [sensor] st q ev rest hq hitems
    have h2 := loop_cons config sensor []
      { st with thermalMgrQueueHandle := some { q with items := rest } }
      { q with items := rest } next rest' rfl hrest
    rw [h1.1, h2.1, hfail, h1.2, hrest]
    simp [loopEffects, thermalMgr]
  · intro tempOk sensors
    have h1 := loop_cons config (errCode, tempC) sensors st q ev rest hq hitems
    have h2 := loop_cons config (.ERR_CODE_SUCCESS, tempOk) sensors st q ev rest hq hitems
    rw [hfail] at h1
    exact ⟨h1.1, h2.1, h1.2, h2.2⟩

/-- Witness for C7: an interrupt and a measure command posted after initialisation; the read
for the interrupt fails with a sensor fault code, and the loop goes on to the measure command,
whose read gives 25.0. -/
theorem read_failure_recovery_witness :
    loopEffects { devAddr := 0x4F, hysteresisThresholdCelsius := .finite 80 }
        [(.ERR_CODE_OTHER 7, .finite 0), (.ERR_CODE_SUCCESS, .finite 25)]
        (thermalMgrSendEvent (some { type := .THERMAL_MGR_EVENT_MEASURE_TEMP_CMD })
          (osHandlerLM75BD (initThermalSystemManager
            { devAddr := 0x4F, hysteresisThresholdCelsius := .finite 80 } State.boot))).2
      = [.readTempLM75BD 0x4F, .logErrorCode (.ERR_CODE_OTHER 7), .readTempLM75BD 0x4F,
          .addTemperatureTelemetry (.finite 25)] :=
  ((read_failure_recovery { devAddr := 0x4F, hysteresisThresholdCelsius := .finite 80 }
    (.ERR_CODE_OTHER 7) (.finite 0) _
    { uxLength := 10, items := [{ type := .THERMAL_MGR_EVENT_OS_INTERRUPT },
        { type := .THERMAL_MGR_EVENT_MEASURE_TEMP_CMD }] }
    { type := .THERMAL_MGR_EVENT_OS_INTERRUPT }
    [{ type := .THERMAL_MGR_EVENT_MEASURE_TEMP_CMD }] rfl rfl (Or.inr rfl)
    (by decide)).2.2.2.2.2.2.2.1
      { type := .THERMAL_MGR_EVENT_MEASURE_TEMP_CMD } [] (.ERR_CODE_SUCCESS, .finite 25)
      rfl).1.trans
    (by rw [handle_measure_ok]; rfl)

/-- C8: when the task loop `thermalMgr` receives an event whose kind is neither the measure
command nor the interrupt, the pass makes exactly one collaborator call, the log of
`ERR_CODE_INVALID_EVENT_RECEIVED`: no sensor read and no notification, and the event is removed
from the queue. The loop then continues: run over that pass and a further one, it makes the log
call followed by the calls of handling the next queued event; run over any further passes, it
makes the log call followed by exactly the calls it makes on the rest of the queue. -/
theorem unknown_event (config : lm75bd_config_t) (sensor : error_code_t × float) (st : State)
    (q : Queue) (ev : thermal_mgr_event_t) (rest : List thermal_mgr_event_t)
    (hq : st.thermalMgrQueueHandle = some q) (hitems : q.items = ev :: rest)
    (hcmd : ev.type ≠ .THERMAL_MGR_EVENT_MEASURE_TEMP_CMD)
    (hint : ev.type ≠ .THERMAL_MGR_EVENT_OS_INTERRUPT) :
    passEffects config sensor st = [.logErrorCode .ERR_CODE_INVALID_EVENT_RECEIVED] ∧
    notifications (passEffects config sensor st) = [] ∧
    (thermalMgrIteration config sensor st).queued = rest ∧
    (∀ (next : thermal_mgr_event_t) (rest' : List thermal_mgr_event_t)
        (sensor' : error_code_t × float), rest = next :: rest' →
      passEffects config sensor' (thermalMgrIteration config sensor st)
        = thermalMgrHandle config sensor' next) ∧
    loopEffects config [sensor] st = [.logErrorCode .ERR_CODE_INVALID_EVENT_RECEIVED] ∧
    (thermalMgr config [sensor] st).queued = rest ∧
    (∀ (next : thermal_mgr_event_t) (rest' : List thermal_mgr_event_t)
        (sensor' : error_code_t × float), rest = next :: rest' →
      loopEffects config [sensor, sensor'] st
        = [.logErrorCode .ERR_CODE_INVALID_EVENT_RECEIVED]
          ++ thermalMgrHandle config sensor' next ∧
      (thermalMgr config [sensor, sensor'] st).queued = rest') ∧
    (∀ sensors : List (error_code_t × float),
      loopEffects config (sensor :: sensors) st
        = [.logErrorCode .ERR_CODE_INVALID_EVENT_RECEIVED]
          ++ loopEffects config sensors
              { st with thermalMgrQueueHandle := some { q with items := rest } } ∧
      (thermalMgr config (sensor :: sensors) st).queued = rest.drop sensors.length) := by
  have heff := passEffects_cons config sensor st q ev rest hq hitems
  have hother := handle_other config sensor ev hcmd hint
  rw [hother] at heff
  have hqd := queued_iteration_cons config sensor st q ev rest hq hitems
  refine ⟨heff, ?_, hqd, ?_, heff, hqd, ?_, ?_⟩
  · rw [heff]
    simp [notifications, Effect.isNotification]
  · intro next rest' sensor' hrest
    rw [iteration_cons config sensor st q ev rest hq hitems]
    exact passEffects_cons config sensor' _ { q with items := rest } next rest' rfl hrest
  · intro next rest' sensor' hrest
    have h1 := loop_cons config sensor [sensor'] st q ev rest hq hitems
    have h2 := loop_cons config sensor' []
      { st with thermalMgrQueueHandle := some { q with items := rest } }
      { q with items := rest } next rest' rfl hrest
    rw [h1.1, h2.1, hother, h1.2, hrest]
    simp [loopEffects, thermalMgr]
  · intro sensors
    have h1 := loop_cons config sensor sensors st q ev rest hq hitems
    rw [hother] at h1
    exact h1

/-- Witness for C8: an event of an unknown kind and an interrupt posted after initialisation;
the loop logs the unknown kind and goes on to the interrupt, whose read gives 25.0 against the
threshold 80.0. -/
theorem unknown_event_witness :
    loopEffects { devAddr := 0x4F, hysteresisThresholdCelsius := .finite 80 }
        [(.ERR_CODE_SUCCESS, .finite 25), (.ERR_CODE_SUCCESS, .finite 25)]
        (osHandlerLM75BD (thermalMgrSendEvent (some { type := .THERMAL_MGR_EVENT_OTHER 2 })
          (initThermalSystemManager
            { devAddr := 0x4F, hysteresisThresholdCelsius := .finite 80 } State.boot)).2)
      = [.logErrorCode .ERR_CODE_INVALID_EVENT_RECEIVED, .readTempLM75BD 0x4F,
          .safeOperatingConditions] :=
  ((unknown_event { devAddr := 0x4F, hysteresisThresholdCelsius := .finite 80 }
    (.ERR_CODE_SUCCESS, .finite 25) _
    { uxLength := 10, items := [{ type := .THERMAL_MGR_EVENT_OTHER 2 },
        { type := .THERMAL_MGR_EVENT_OS_INTERRUPT }] }
    { type := .THERMAL_MGR_EVENT_OTHER 2 } [{ type := .THERMAL_MGR_EVENT_OS_INTERRUPT }]
    rfl rfl (by decide) (by decide)).2.2.2.2.2.2.1
      { type := .THERMAL_MGR_EVENT_OS_INTERRUPT } [] (.ERR_CODE_SUCCESS, .finite 25) rfl).1.trans
    (by
      have hlt : float.lt (.finite 25) (.finite 80) = true := by norm_num [float.lt]
      rw [handle_interrupt_ok]
      simp [hlt])

/-- C9: the task keeps no memory between events. Let `r` be the run made of any sequence of
atomic steps from any state `st`. The notifications made during the run are the concatenation,
in order of reception, of `eventNotifications` for each received event: a function of the kind of
the event, of the result of its own sensor read and of the configured threshold only. In
particular, for two queued interrupts whose successful readings `lo < threshold <= hi` straddle
the threshold, two passes give one safe and one over-temperature notification in the order of
the readings, and equal readings give the same notification twice. -/
theorem task_stateless (config : lm75bd_config_t) (st : State) (calls : List Call) (r : Run)
    (hr : r = (Run.start st).steps config calls) :
    notifications (r.state.trace.drop st.trace.length)
      = r.received.flatMap
          (fun p => eventNotifications config.hysteresisThresholdCelsius p.1.type p.2) ∧
    (∀ (lo hi : float) (st2 : State) (q : Queue) (rest : List thermal_mgr_event_t),
      st2.thermalMgrQueueHandle = some q →
      q.items = { type := .THERMAL_MGR_EVENT_OS_INTERRUPT }
        :: { type := .THERMAL_MGR_EVENT_OS_INTERRUPT } :: rest →
      float.lt lo config.hysteresisThresholdCelsius = true →
      float.ge hi config.hysteresisThresholdCelsius = true →
      notifications (loopEffects config [(.ERR_CODE_SUCCESS, lo), (.ERR_CODE_SUCCESS, hi)] st2)
        = [.safeOperatingConditions, .overTemperatureDetected] ∧
      notifications (loopEffects config [(.ERR_CODE_SUCCESS, hi), (.ERR_CODE_SUCCESS, lo)] st2)
        = [.overTemperatureDetected, .safeOperatingConditions] ∧
      notifications (loopEffects config [(.ERR_CODE_SUCCESS, lo), (.ERR_CODE_SUCCESS, lo)] st2)
        = [.safeOperatingConditions, .safeOperatingConditions] ∧
      notifications (loopEffects config [(.ERR_CODE_SUCCESS, hi), (.ERR_CODE_SUCCESS, hi)] st2)
        = [.overTemperatureDetected, .overTemperatureDetected]) := by
  constructor
  · rw [hr]
    apply notifications_steps config calls (Run.start st) st.trace.length
    · exact Nat.le_refl _
    · simp [Run.start, notifications]
  · intro lo hi st2 q rest hq hitems hlo hhi
    have hq2 : st2.queued = q.items := by simp [State.queued, hq]
    have hhi' := float_ge_not_lt _ _ hhi
    simp [loopEffects_eq, hq2, hitems, handleAll, handle_interrupt_ok, notifications,
      Effect.isNotification, hlo, hhi']

/-- Witness for C9: two interrupts posted after initialisation, then two passes reading 39.9 and
40.0 against the threshold 40.0. -/
theorem task_stateless_witness :
    notifications (((Run.start (initThermalSystemManager
            { devAddr := 0x4F, hysteresisThresholdCelsius := .finite 40 } State.boot)).steps
          { devAddr := 0x4F, hysteresisThresholdCelsius := .finite 40 }
          [.osHandler, .osHandler, .taskPass (.ERR_CODE_SUCCESS, .finite (399 / 10)),
            .taskPass (.ERR_CODE_SUCCESS, .finite 40)]).state.trace.drop
        (initThermalSystemManager
          { devAddr := 0x4F, hysteresisThresholdCelsius := .finite 40 } State.boot).trace.length)
      = [.safeOperatingConditions, .overTemperatureDetected] :=
  (task_stateless { devAddr := 0x4F, hysteresisThresholdCelsius := .finite 40 }
    (initThermalSystemManager
      { devAddr := 0x4F, hysteresisThresholdCelsius := .finite 40 } State.boot)
    [.osHandler, .osHandler, .taskPass (.ERR_CODE_SUCCESS, .finite (399 / 10)),
      .taskPass (.ERR_CODE_SUCCESS, .finite 40)] _ rfl).1.trans
    (by
      have h1 : float.lt (.finite (399 / 10)) (.finite 40) = true := by norm_num [float.lt]
      have h2 : float.lt (.finite 40) (.finite 40) = false := by norm_num [float.lt]
      simp [Run.steps, Run.step, Run.start, State.nextReceived, initThermalSystemManager,
        xQueueCreateStatic, osHandlerLM75BD, thermalMgrSendEvent, xQueueSend, xQueueReceive,
        thermalMgrIteration, THERMAL_MGR_QUEUE_LENGTH, State.boot, interruptEvent,
        eventNotifications, h1, h2])

end ThermalMgr
